import Mathlib

/-!
Shallow embedding of the invoice_qr_scanner Odoo module
(src/models/invoice_scan_record.py and src/controllers/mobile_api.py).

Python strings are modelled as Lean `String` / `List Char`; Python
exceptions as `Except PyExc`; the record store as an explicit list with
the SQL uniqueness constraint checked on create; HTTP transport, the
headless-browser render step and the accounting collaborator are
oracles (function parameters), so theorems quantify over all their
behaviours.
-/

/-- Python exception values that the modelled code can raise. -/
inductive PyExc where
  | requestException (msg : String)
  | valueError (msg : String)
  | typeError (msg : String)
  | integrityError (msg : String)
  | userError (msg : String)
  | other (msg : String)
deriving DecidableEq, Repr

/-- Python regex `\s` on the character set reachable in this code base:
ASCII whitespace plus the no-break space U+00A0 (Python `str` patterns
treat it as whitespace). -/
def pyIsSpace (c : Char) : Bool :=
  c == ' ' || c == '\t' || c == '\n' || c == '\r' ||
  c == Char.ofNat 11 || c == Char.ofNat 12 || c == Char.ofNat 160

/-- Character class `[A-Z0-9]` under `re.IGNORECASE` (ASCII letters and digits). -/
def isAlnumAZ (c : Char) : Bool :=
  (('A' ≤ c && c ≤ 'Z') || ('a' ≤ c && c ≤ 'z') || c.isDigit)

/-- Character class `[0-9a-f]` under `re.IGNORECASE`. -/
def isHexDigitCI (c : Char) : Bool :=
  c.isDigit || ('a' ≤ c && c ≤ 'f') || ('A' ≤ c && c ≤ 'F')

/-- Value of a decimal digit string (used to model `float(...)` and
`strptime` on the all-digit strings this code feeds them; those values
are integers, exactly representable). -/
def digitsToNat (l : List Char) : Nat :=
  l.foldl (fun a c => a * 10 + (c.toNat - '0'.toNat)) 0

/-- Python `str.strip()`. -/
def pyStrip (l : List Char) : List Char :=
  ((l.dropWhile pyIsSpace).reverse.dropWhile pyIsSpace).reverse

/-- Python slicing `s[:n]`. -/
def pyTakeStr (n : Nat) (s : String) : String :=
  String.mk (s.data.take n)

/-- Case-insensitive literal match: if `l` starts with `label` (up to
ASCII case), return the remainder.  Models matching the fixed label part
of a pattern compiled with `re.IGNORECASE`. -/
def stripLabelCI : List Char → List Char → Option (List Char)
  | [], l => some l
  | _ :: _, [] => none
  | c :: cs, d :: ds => if c.toUpper = d.toUpper then stripLabelCI cs ds else none

/-- Case-insensitive substring test (models `pat in text.upper()` for an
upper-case `pat`). -/
def containsSubCI : List Char → List Char → Bool
  | [], pat => pat.isEmpty
  | c :: rest, pat =>
    (stripLabelCI pat (c :: rest)).isSome || containsSubCI rest pat

/-- `re.search` for a pattern `LABEL…tail`: try every start position left
to right; at a position the label must match case-insensitively and then
`tailFn` (the backtracking semantics of the rest of the pattern at that
position) must succeed. -/
def searchPattern (label : List Char) (tailFn : List Char → Option α) :
    List Char → Option α
  | [] => none
  | c :: rest =>
    match stripLabelCI label (c :: rest) with
    | some rem =>
      match tailFn rem with
      | some a => some a
      | none => searchPattern label tailFn rest
    | none => searchPattern label tailFn rest

/-- Take exactly `n` hexadecimal characters from the front of `l`. -/
def takeHexRun : Nat → List Char → Option (List Char × List Char)
  | 0, l => some ([], l)
  | _ + 1, [] => none
  | n + 1, c :: cs =>
    if isHexDigitCI c then
      (takeHexRun n cs).map (fun p => (c :: p.1, p.2))
    else none

/-- Match the hyphen-separated fixed-width hex groups of the UUID regex
`[0-9a-f]{8}-[0-9a-f]{4}-[0-9a-f]{4}-[0-9a-f]{4}-[0-9a-f]{12}` at the
front of the input, returning the matched text and the remainder. -/
def matchUuidGroups : List Nat → List Char → Option (List Char × List Char)
  | [], _ => none
  | [n], l => takeHexRun n l
  | n :: m :: rest, l =>
    match takeHexRun n l with
    | none => none
    | some (g, r) =>
      match r with
      | [] => none
      | d :: r2 =>
        if d = '-' then
          match matchUuidGroups (m :: rest) r2 with
          | none => none
          | some (g2, r3) => some (g ++ d :: g2, r3)
        else none

def uuidGroupSpec : List Nat := [8, 4, 4, 4, 12]

/-- Attempt the UUID pattern at the current position. -/
def matchUuidAt (l : List Char) : Option (List Char) :=
  (matchUuidGroups uuidGroupSpec l).map (fun p => p.1)

/-- `re.search` of the UUID pattern: leftmost match. -/
def searchUuid : List Char → Option (List Char)
  | [] => none
  | c :: cs =>
    match matchUuidAt (c :: cs) with
    | some m => some m
    | none => searchUuid cs

/-- `InvoiceScanRecord.extract_uuid_from_url`: leftmost UUID-shaped
substring, lowercased; `None` when absent. -/
def extract_uuid_from_url (url : String) : Option String :=
  (searchUuid url.data).map (fun m => String.mk (m.map Char.toLower))

/-- Specification predicate: `m` is a 5-group hyphenated hex string of
widths 8-4-4-4-12 (in any letter case). -/
def groupsPattern : List Nat → List Char → Prop
  | [], _ => False
  | [n], m => m.length = n ∧ ∀ c ∈ m, isHexDigitCI c = true
  | n :: g2 :: rest, m =>
    ∃ g t, m = g ++ '-' :: t ∧ g.length = n ∧ (∀ c ∈ g, isHexDigitCI c = true) ∧
      groupsPattern (g2 :: rest) t

def uuidPattern (m : List Char) : Prop := groupsPattern uuidGroupSpec m

/-- Calendar dates produced by `datetime.strptime` with format %d/%m/%Y followed by `.date()`. -/
structure DateD where
  year : Nat
  month : Nat
  day : Nat
deriving DecidableEq, Repr

def isLeapYear (y : Nat) : Bool :=
  y % 4 == 0 && (y % 100 != 0 || y % 400 == 0)

def daysInMonth (y m : Nat) : Nat :=
  if m == 2 then (if isLeapYear y then 29 else 28)
  else if m == 4 || m == 6 || m == 9 || m == 11 then 30
  else 31

/-- `datetime.strptime` (format %d/%m/%Y) followed by `.date()` on a string already known to
have shape `\d{2}/\d{2}/\d{4}`: raises `ValueError` unless the numbers
form a real calendar date (this validation is NOT wrapped in try/except
in `_extract_dgi_data_from_text`). -/
def pyStrptimeDMY (d m y : Nat) : Except PyExc DateD :=
  if 1 ≤ m ∧ m ≤ 12 ∧ 1 ≤ d ∧ d ≤ daysInMonth y m ∧ 1 ≤ y then
    Except.ok ⟨y, m, d⟩
  else Except.error (PyExc.valueError "invalid date for format %d/%m/%Y")

/-- The structured field set built by `_extract_dgi_data_from_text` (and by
the JSON mapping of `_fetch_dgi_with_requests`), plus the error-dict shape
returned by `fetch_invoice_data_from_dgi` on failure (`success = false`). -/
structure DgiData where
  success : Bool := true
  error : Option String := none
  raw_html : String := ""
  text_content : String := ""
  supplier_name : Option String := none
  supplier_code_dgi : Option String := none
  customer_name : Option String := none
  customer_code_dgi : Option String := none
  invoice_number_dgi : Option String := none
  invoice_date : Option DateD := none
  verification_id : Option String := none
  amount_ttc : Option Nat := none
deriving DecidableEq, Repr

/-- First character class of the supplier/client patterns under
`re.IGNORECASE`: letters, digits, whitespace, dash, dot, ampersand and
the apostrophe character. -/
def supplierClass (c : Char) : Bool :=
  isAlnumAZ c || pyIsSpace c || c == '-' || c == '.' || c == '&' || c == Char.ofNat 39

/-- The part `\s*-\s*([A-Z0-9]+)` that must follow the lazily matched name
group: skip whitespace, a literal dash, whitespace, then a maximal
nonempty alphanumeric run (the code group). -/
def supplierAfter (l : List Char) : Option (List Char) :=
  match l.dropWhile pyIsSpace with
  | '-' :: r2 =>
    let g2 := (r2.dropWhile pyIsSpace).takeWhile isAlnumAZ
    if g2.isEmpty then none else some g2
  | _ => none

/-- Lazy expansion of the name group (supplierClass repeated, lazy): grow the
group one character at a time (each char must be in the class) and stop at
the first point where `\s*-\s*([A-Z0-9]+)` matches the remainder.  `acc`
is the group accumulated so far. -/
def supplierScan (acc : List Char) : List Char → Option (List Char × List Char)
  | [] => none
  | c :: cs =>
    if supplierClass c then
      match supplierAfter cs with
      | some g2 => some (acc ++ [c], g2)
      | none => supplierScan (acc ++ [c]) cs
    else none

/-- Backtracking semantics of
of whitespace skip, lazy name group, dash, then code group at a fixed position
(after the label).  First pass: leading whitespace consumed maximally,
then the lazy group grows from the first non-whitespace character.
Second pass (regex backtracking into the leading `\s*` when the first
pass fails): the group is the last whitespace character, acceptable when
the text after the whitespace run starts with `-\s*[A-Z0-9]+` directly —
all boundaries inside the whitespace run are equivalent to this check. -/
def supplierTail (l : List Char) : Option (List Char × List Char) :=
  let w := l.takeWhile pyIsSpace
  let rest := l.dropWhile pyIsSpace
  match supplierScan [] rest with
  | some r => some r
  | none =>
    match w.getLast?, supplierAfter rest with
    | some wc, some g2 => some ([wc], g2)
    | _, _ => none

/-- Tail `\s*\n*\s*(\d{2}/\d{2}/\d{4})` of the invoice-date pattern:
after the maximal whitespace run the ten characters must have the fixed
digit/slash shape (the group starts with `\d`, so regex backtracking into
the whitespace cannot produce any other match). -/
def dateTail (l : List Char) : Option (Nat × Nat × Nat) :=
  match l.dropWhile pyIsSpace with
  | d1 :: d2 :: s1 :: m1 :: m2 :: s2 :: y1 :: y2 :: y3 :: y4 :: _ =>
    if (d1.isDigit && d2.isDigit && m1.isDigit && m2.isDigit &&
        y1.isDigit && y2.isDigit && y3.isDigit && y4.isDigit &&
        s1 == '/' && s2 == '/') then
      some (digitsToNat [d1, d2], digitsToNat [m1, m2],
            digitsToNat [y1, y2, y3, y4])
    else none
  | _ => none

/-- Tail `\s*\n*\s*([A-Z0-9]+)` (invoice number): maximal whitespace skip
then a maximal nonempty alphanumeric run; no constraint follows the
group, and the group cannot match whitespace, so no further backtracking
is possible. -/
def alnumTail (l : List Char) : Option (List Char) :=
  let g := (l.dropWhile pyIsSpace).takeWhile isAlnumAZ
  if g.isEmpty then none else some g

/-- Class `[A-Z0-9\-]` (verification-id group). -/
def verifClass (c : Char) : Bool := isAlnumAZ c || c == '-'

/-- Tail `\s*\n*\s*([A-Z0-9\-]+)` (verification id). -/
def verifTail (l : List Char) : Option (List Char) :=
  let g := (l.dropWhile pyIsSpace).takeWhile verifClass
  if g.isEmpty then none else some g

def isDigitOrSpace (c : Char) : Bool := c.isDigit || pyIsSpace c

def startsWithCI (l pat : List Char) : Bool := (stripLabelCI pat l).isSome

/-- Backtracking semantics of `\s*\n*\s*([\d\s]+)\s*(?:F?CFA)` at a fixed
position: after the maximal whitespace run `w`, the greedy group takes
the maximal digit/whitespace run `d`; the literal `F?CFA` can only match
right after that run (every shorter greedy choice leaves a digit or
whitespace where the literal would have to start).  When `d` is empty the
regex backtracks into `w` and can still match with a one-whitespace-char
group if `FCFA`/`CFA` follows the whitespace run directly. -/
def montantTail (l : List Char) : Option (List Char) :=
  let w := l.takeWhile pyIsSpace
  let rest := l.dropWhile pyIsSpace
  let d := rest.takeWhile isDigitOrSpace
  let tl := rest.dropWhile isDigitOrSpace
  if !d.isEmpty then
    if startsWithCI tl ['F', 'C', 'F', 'A'] || startsWithCI tl ['C', 'F', 'A'] then
      some d
    else none
  else
    match w.getLast? with
    | some wc =>
      if startsWithCI rest ['F', 'C', 'F', 'A'] || startsWithCI rest ['C', 'F', 'A'] then
        some [wc]
      else none
    | none => none

/-- `.replace(' ', '').replace(' ', '')` on the amount group. -/
def stripSeparators (l : List Char) : List Char :=
  l.filter (fun c => !(c == ' ' || c == Char.ofNat 160))

/-- `float(s)` as used on the cleaned amount group.  The group only ever
contains digits and whitespace; after separator removal and strip,
`float` succeeds exactly on nonempty all-digit strings (internal
whitespace such as a newline makes it raise `ValueError`). -/
def pyFloatDigits (l : List Char) : Except PyExc Nat :=
  if !l.isEmpty && l.all Char.isDigit then Except.ok (digitsToNat l)
  else Except.error (PyExc.valueError "could not convert string to float")

/-- The `MONTANT TTC` block of `_extract_dgi_data_from_text` (search the
amount pattern, strip separators, strip, `float`). -/
def extractMontant (t : List Char) : Except PyExc (Option Nat) :=
  match searchPattern ("MONTANT TTC:".data) montantTail t with
  | none => Except.ok none
  | some g => (pyFloatDigits (pyStrip (stripSeparators g))).map some

/-- The `DATE DE FACTURATION` block (search, then unguarded `strptime`). -/
def extractDate (t : List Char) : Except PyExc (Option DateD) :=
  match searchPattern ("DATE DE FACTURATION:".data) dateTail t with
  | none => Except.ok none
  | some (d, m, y) => (pyStrptimeDMY d m y).map some

/-- `InvoiceScanRecord._extract_dgi_data_from_text`: build the base dict
(`success: True`, truncated raw captures), then run the six independent
field patterns in source order.  The date block and the amount block can
raise (`strptime` / `float` are not individually guarded); every other
block only extends the dict when its pattern matches. -/
def _extract_dgi_data_from_text (text_content : String) (raw_html : String) :
    Except PyExc DgiData :=
  let t := text_content.data
  let supplier := searchPattern ("FOURNISSEUR:".data) supplierTail t
  let client := searchPattern ("CLIENT:".data) supplierTail t
  let invnum := searchPattern ("NUMERO DE FACTURE:".data) alnumTail t
  match extractDate t with
  | Except.error e => Except.error e
  | Except.ok dt =>
    let verif := searchPattern ("ID VERIFICATION:".data) verifTail t
    match extractMontant t with
    | Except.error e => Except.error e
    | Except.ok amt =>
      Except.ok
        { success := true,
          raw_html := if raw_html == "" then "" else pyTakeStr 5000 raw_html,
          text_content := pyTakeStr 3000 text_content,
          supplier_name := supplier.map (fun p => String.mk (pyStrip p.1)),
          supplier_code_dgi := supplier.map (fun p => String.mk (pyStrip p.2)),
          customer_name := client.map (fun p => String.mk (pyStrip p.1)),
          customer_code_dgi := client.map (fun p => String.mk (pyStrip p.2)),
          invoice_number_dgi := invnum.map (fun g => String.mk (pyStrip g)),
          invoice_date := dt,
          verification_id := verif.map (fun g => String.mk (pyStrip g)),
          amount_ttc := amt }

/-- A JSON dictionary value as seen by the key-mapping loops: `text` is
`str(value)` and `asFloat` is the outcome of
`float(str(value).replace(' ', ''))`, supplied by the oracle so that the
model covers every possible Python value (including ones on which
`float` raises). -/
structure JEntry where
  text : String
  asFloat : Except PyExc Nat
deriving Repr

/-- Result of `resp.json()`: a dict (assoc list) or any non-dict value. -/
inductive PyJson where
  | dict (entries : List (String × JEntry))
  | nonDict
deriving Repr

/-- An HTTP response: status code, the outcome of `.json()` (which raises
`ValueError` on malformed JSON), and `.text`. -/
structure HttpResp where
  status_code : Nat
  json : Except PyExc PyJson
  text : String
deriving Repr

/-- The HTTP transport and HTML-to-text collaborators as oracles:
`get url` is the outcome of `requests.get(url, ...)` (an exception models
timeouts, connection errors, and any unexpected failure), `soupText`
models `BeautifulSoup(html, 'html.parser').get_text(separator='\n')`. -/
structure Transport where
  get : String → Except PyExc HttpResp
  soupText : String → String

def jlookup (k : String) (entries : List (String × JEntry)) : Option JEntry :=
  (entries.find? (fun e => e.1 == k)).map (fun e => e.2)

/-- Diagnostic-only rendering of `str(json_data)[:3000]`. -/
def pyStrOfJson : PyJson → String
  | PyJson.dict entries =>
    pyTakeStr 3000 (String.join (entries.map (fun e => e.1 ++ ":" ++ e.2.text)))
  | PyJson.nonDict => ""

def supplierJsonKeys : List String := ["supplier_name", "fournisseur", "supplierName"]
def amountJsonKeys : List String := ["amount_ttc", "montantTtc", "montant_ttc", "totalAmount"]
def invoiceJsonKeys : List String := ["invoice_number", "invoiceNumber", "numero_facture"]

/-- The JSON-to-field mapping of the direct-API attempt: for each
candidate key present in the dict, assign the field (later keys
overwrite); the amount conversion `float(...)` can raise. -/
def mapJsonData (entries : List (String × JEntry)) : Except PyExc DgiData :=
  let d0 : DgiData :=
    { success := true, raw_html := "", text_content := pyStrOfJson (PyJson.dict entries) }
  let d1 := supplierJsonKeys.foldl
    (fun d k => match jlookup k entries with
      | some v => { d with supplier_name := some v.text }
      | none => d) d0
  match amountJsonKeys.foldlM
    (fun d k => match jlookup k entries with
      | some v => (v.asFloat).map (fun n => { d with amount_ttc := some n })
      | none => Except.ok d) d1 with
  | Except.error e => Except.error e
  | Except.ok d2 =>
    Except.ok (invoiceJsonKeys.foldl
      (fun d k => match jlookup k entries with
        | some v => { d with invoice_number_dgi := some v.text }
        | none => d) d2)

/-- Python truthiness of the check on supplier_name or amount_ttc:
an empty string and the amount `0.0` are falsy. -/
def hasUsableJsonFields (d : DgiData) : Bool :=
  (match d.supplier_name with | some s => !(s == "") | none => false) ||
  (match d.amount_ttc with | some n => !(n == 0) | none => false)

/-- One iteration of the direct-API loop body, with its
`except (RequestException, ValueError): continue` handler.  The result is
`ok (some d)` for the early `return data`, `ok none` for falling through
to the next URL, `error e` for an exception the inner handler does not
catch. -/
def tryApiUrl (t : Transport) (apiUrl : String) : Except PyExc (Option DgiData) :=
  let attempt : Except PyExc (Option DgiData) :=
    match t.get apiUrl with
    | Except.error e => Except.error e
    | Except.ok resp =>
      if resp.status_code == 200 then
        match resp.json with
        | Except.error e => Except.error e
        | Except.ok j =>
          match j with
          | PyJson.dict entries =>
            if !entries.isEmpty then
              match mapJsonData entries with
              | Except.error e => Except.error e
              | Except.ok d => if hasUsableJsonFields d then Except.ok (some d) else Except.ok none
            else Except.ok none
          | PyJson.nonDict => Except.ok none
      else Except.ok none
  match attempt with
  | Except.error (PyExc.requestException _) => Except.ok none
  | Except.error (PyExc.valueError _) => Except.ok none
  | Except.error e => Except.error e
  | Except.ok v => Except.ok v

def tryApiUrls (t : Transport) : List String → Except PyExc (Option DgiData)
  | [] => Except.ok none
  | u :: rest =>
    match tryApiUrl t u with
    | Except.error e => Except.error e
    | Except.ok (some d) => Except.ok (some d)
    | Except.ok none => tryApiUrls t rest

def dgiApiUrls (uuid : String) : List String :=
  ["https://www.services.fne.dgi.gouv.ci/api/verification/" ++ uuid,
   "https://www.services.fne.dgi.gouv.ci/api/v1/verification/" ++ uuid]

/-- Body of `_fetch_dgi_with_requests` before its outer
`except Exception: return None`: the direct-API attempts, then the SSR
fetch of the page itself with the section-marker check. -/
def fetchRequestsBody (t : Transport) (url : String) : Except PyExc (Option DgiData) :=
  let step1 : Except PyExc (Option DgiData) :=
    match extract_uuid_from_url url with
    | some uuid => tryApiUrls t (dgiApiUrls uuid)
    | none => Except.ok none
  match step1 with
  | Except.error e => Except.error e
  | Except.ok (some d) => Except.ok (some d)
  | Except.ok none =>
    match t.get url with
    | Except.error e => Except.error e
    | Except.ok resp =>
      if resp.status_code == 200 then
        let text_content := t.soupText resp.text
        if containsSubCI (text_content.data.map Char.toUpper) ("FOURNISSEUR".data) ||
           containsSubCI (text_content.data.map Char.toUpper) ("NUMERO DE FACTURE".data) then
          match _extract_dgi_data_from_text text_content resp.text with
          | Except.error e => Except.error e
          | Except.ok d => Except.ok (some d)
        else Except.ok none
      else Except.ok none

/-- `InvoiceScanRecord._fetch_dgi_with_requests`: the whole body is
wrapped in `try ... except Exception: return None`, so the fast path
never lets an exception escape. -/
def _fetch_dgi_with_requests (t : Transport) (url : String) :
    Except PyExc (Option DgiData) :=
  match fetchRequestsBody t url with
  | Except.ok v => Except.ok v
  | Except.error _ => Except.ok none

/-- Outcome of one `playwright_instance.chromium.launch(...)` call,
indexed by the attempt number (the oracle covers every possible behaviour
of the browser runtime). -/
def LaunchOracle := Nat → Except String Nat

/-- The retry loop of `_launch_playwright_browser`: `fuel` attempts remain,
`attempt` is the 1-based attempt number, `sleeps` records the
`time.sleep(attempt * 3)` delays performed so far, `lastErr` the last
caught launch error.  When the loop ends without success the code runs
`raise last_error`; the error payload carries the delays performed so the
backoff schedule is observable. -/
def launchFrom (launch : LaunchOracle) (maxR : Nat) :
    Nat → Nat → List Nat → Option String → Except (Option String × List Nat) (Nat × List Nat)
  | _, 0, sleeps, lastErr => Except.error (lastErr, sleeps)

  | attempt, fuel + 1, sleeps, _lastErr =>
    match launch attempt with
    | Except.ok b => Except.ok (b, sleeps)
    | Except.error e =>
      if attempt < maxR then
        launchFrom launch maxR (attempt + 1) fuel (sleeps ++ [attempt * 3]) (some e)
      else
        launchFrom launch maxR (attempt + 1) fuel sleeps (some e)

/-- `InvoiceScanRecord._launch_playwright_browser`: up to `max_retries`
launch attempts (default 3), sleeping `attempt * 3` seconds after each
failed attempt except the last, returning the browser of the first
successful attempt, re-raising the last error when all attempts fail. -/
def _launch_playwright_browser (launch : LaunchOracle) (max_retries : Nat) :
    Except (Option String × List Nat) (Nat × List Nat) :=
  launchFrom launch max_retries 1 max_retries [] none

/-- Outcome of the Playwright render session in
`fetch_invoice_data_from_dgi` (everything inside the `with sync_playwright`
block up to reading the body text): the polled body text and truncated
page content, an ImportError (Playwright absent), or any exception
(launch failure after retries, navigation timeout, browser crash). -/
inductive RenderOutcome where
  | page (text_content raw_html : String)
  | importErr
  | crash (msg : String)
deriving DecidableEq, Repr

def pyExcMsg : PyExc → String
  | PyExc.requestException m => m
  | PyExc.valueError m => m
  | PyExc.typeError m => m
  | PyExc.integrityError m => m
  | PyExc.userError m => m
  | PyExc.other m => m

/-- The `except Exception` handler of `fetch_invoice_data_from_dgi`:
browser-crash signatures get an enriched diagnostic, everything else the
plain message; either way a `success: False` dict is returned. -/
def renderErrorDict (msg : String) : DgiData :=
  if containsSubCI msg.data ("SIGTRAP".data) ||
     containsSubCI msg.data ("Target page, context or browser has been closed".data) then
    { success := false, error := some ("DIAGNOSTIC BROWSER CRASH: " ++ msg) }
  else
    { success := false, error := some ("Erreur: " ++ msg) }

/-- `InvoiceScanRecord.fetch_invoice_data_from_dgi`: try the fast path;
on `None` (or a non-success dict) run the render path, extract from the
rendered text, and convert every exception — including the date
`ValueError` escaping `_extract_dgi_data_from_text` — into a
`success: False` dict. -/
def fetch_invoice_data_from_dgi (t : Transport) (render : RenderOutcome)
    (url : String) : DgiData :=
  let renderStep : DgiData :=
    match render with
    | RenderOutcome.page txt raw =>
      match _extract_dgi_data_from_text txt raw with
      | Except.ok d => d
      | Except.error e => renderErrorDict (pyExcMsg e)
    | RenderOutcome.importErr =>
      { success := false, error := some "Playwright absent du serveur" }
    | RenderOutcome.crash m => renderErrorDict m
  match _fetch_dgi_with_requests t url with
  | Except.ok (some d) => if d.success then d else renderStep
  | Except.ok none => renderStep
  | Except.error _ => renderStep

/-- Lifecycle states of `invoice.scan.record` (`done` is labelled
"Facture créée", named `created` in the spec). -/
inductive RecState where
  | draft
  | done
  | processed
  | error
deriving DecidableEq, Repr

/-- An `invoice.scan.record` row (the fields the scan pipeline touches). -/
structure ScanRecord where
  id : Nat
  qr_uuid : String
  qr_url : String
  company_id : Nat
  scanned_by : Nat := 0
  supplier_name : Option String := none
  supplier_code_dgi : Option String := none
  customer_name : Option String := none
  customer_code_dgi : Option String := none
  invoice_number_dgi : Option String := none
  invoice_date : Option DateD := none
  verification_id : Option String := none
  amount_ttc : Nat := 0
  raw_html : String := ""
  state : RecState := RecState.draft
  error_message : Option String := none
  invoice_id : Option Nat := none
  duplicate_count : Nat := 0
  last_duplicate_attempt : Option Nat := none
  last_duplicate_user_id : Option Nat := none
deriving DecidableEq, Repr

/-- The record store: rows plus the next fresh row id. -/
structure Store where
  records : List ScanRecord
  nextId : Nat
deriving DecidableEq, Repr

def sqlConstraintMsg : String := "duplicate key value violates unique constraint qr_uuid_unique"

/-- Row insertion under the `_sql_constraints` declaration
`unique(qr_uuid, company_id)`: the database rejects the insert with an
IntegrityError whenever ANY existing row — whatever its state — has the
same `(qr_uuid, company_id)` pair. -/
def Store.create (st : Store) (r : ScanRecord) : Except PyExc (Store × Nat) :=
  if st.records.any (fun x => x.qr_uuid == r.qr_uuid && x.company_id == r.company_id) then
    Except.error (PyExc.integrityError sqlConstraintMsg)
  else
    Except.ok ({ records := st.records ++ [{ r with id := st.nextId }],
                 nextId := st.nextId + 1 }, st.nextId)

/-- `record.write(...)` targeted at a row id. -/
def Store.writeRecord (st : Store) (rid : Nat) (f : ScanRecord → ScanRecord) : Store :=
  { st with records := st.records.map (fun r => if r.id == rid then f r else r) }

/-- `InvoiceScanRecord.check_duplicate`: the record with this uuid for the
current company whose state is `done` or `processed`; `draft` and `error`
rows are ignored. -/
def check_duplicate (st : Store) (company : Nat) (qr_uuid : String) : Option ScanRecord :=
  st.records.find? (fun r =>
    r.qr_uuid == qr_uuid &&
    (r.state == RecState.done || r.state == RecState.processed) &&
    r.company_id == company)

/-- The created `account.move` summary returned to the caller. -/
structure Invoice where
  id : Nat
  name : String
  state : String
  amount_total : Nat
  partner_name : String
deriving DecidableEq, Repr

/-- The snapshot of the existing record embedded in a DUPLICATE result. -/
structure DupSnapshot where
  id : Nat
  supplier_name : String
  supplier_code_dgi : String
  invoice_number_dgi : String
  amount_ttc : Nat
  invoice_id : Option Nat
  duplicate_count : Nat
  last_duplicate_attempt : Option Nat
deriving DecidableEq, Repr

def snapshotOf (r : ScanRecord) : DupSnapshot :=
  { id := r.id,
    supplier_name := (r.supplier_name).getD "",
    supplier_code_dgi := (r.supplier_code_dgi).getD "",
    invoice_number_dgi := (r.invoice_number_dgi).getD "",
    amount_ttc := r.amount_ttc,
    invoice_id := r.invoice_id,
    duplicate_count := r.duplicate_count,
    last_duplicate_attempt := r.last_duplicate_attempt }

/-- The structured result dicts of `process_qr_scan`. -/
inductive ScanResult where
  | invalidUrl
  | duplicate (duplicate_count : Nat) (existing : DupSnapshot)
  | dgiError (error : Option String) (record_id : Nat)
  | invoiceError (error : String) (record_id : Nat)
  | created (record_id : Nat) (invoice : Invoice)
deriving DecidableEq, Repr

def ScanResult.error_code : ScanResult → Option String
  | ScanResult.invalidUrl => some "INVALID_URL"
  | ScanResult.duplicate _ _ => some "DUPLICATE"
  | ScanResult.dgiError _ _ => some "DGI_ERROR"
  | ScanResult.invoiceError _ _ => some "INVOICE_ERROR"
  | ScanResult.created _ _ => none

def ScanResult.success : ScanResult → Bool
  | ScanResult.created _ _ => true
  | _ => false

/-- The accounting collaborator `_create_invoice` as an oracle: given the
record it either returns the created invoice or raises (insufficient
configuration, validation failure, ...).  On success the real method also
writes `invoice_id` and `state: done` on the record; that write is
performed by the callers below. -/
def InvoiceOracle := ScanRecord → Except String Invoice

/-- `InvoiceScanRecord.process_qr_scan`: extract the UUID, check for a
`done`/`processed` duplicate (updating its counters), fetch the DGI data,
then either persist an `error` record (DGI_ERROR) or persist a `draft`
record and attempt invoice creation, converting a creation failure into a
persisted `error` record plus an INVOICE_ERROR result.  Both `create`
calls go through the SQL uniqueness constraint and can therefore raise an
IntegrityError that nothing in this method catches. -/
def process_qr_scan (fetchDgi : String → DgiData) (createInvoice : InvoiceOracle)
    (st : Store) (company userId now : Nat) (qr_url : String) :
    Except PyExc (Store × ScanResult) :=
  match extract_uuid_from_url qr_url with
  | none => Except.ok (st, ScanResult.invalidUrl)
  | some qr_uuid =>
    match check_duplicate st company qr_uuid with
    | some existing =>
      let existing2 := { existing with
        duplicate_count := existing.duplicate_count + 1,
        last_duplicate_attempt := some now,
        last_duplicate_user_id := some userId }
      let st2 := st.writeRecord existing.id (fun r => { r with
        duplicate_count := existing.duplicate_count + 1,
        last_duplicate_attempt := some now,
        last_duplicate_user_id := some userId })
      Except.ok (st2, ScanResult.duplicate existing2.duplicate_count (snapshotOf existing2))
    | none =>
      let dgi := fetchDgi qr_url
      if dgi.success then
        let draftVals : ScanRecord :=
          { id := 0,
            qr_uuid := qr_uuid,
            qr_url := qr_url,
            company_id := company,
            scanned_by := userId,
            supplier_name := dgi.supplier_name,
            supplier_code_dgi := dgi.supplier_code_dgi,
            customer_name := dgi.customer_name,
            customer_code_dgi := dgi.customer_code_dgi,
            invoice_number_dgi := dgi.invoice_number_dgi,
            invoice_date := dgi.invoice_date,
            verification_id := dgi.verification_id,
            amount_ttc := (dgi.amount_ttc).getD 0,
            raw_html := dgi.raw_html,
            state := RecState.draft }
        match st.create draftVals with
        | Except.error e => Except.error e
        | Except.ok (st1, rid) =>
          match createInvoice { draftVals with id := rid } with
          | Except.ok inv =>
            let st2 := st1.writeRecord rid (fun r =>
              { r with invoice_id := some inv.id, state := RecState.done })
            Except.ok (st2, ScanResult.created rid inv)
          | Except.error msg =>
            let st2 := st1.writeRecord rid (fun r =>
              { r with state := RecState.error, error_message := some msg })
            Except.ok (st2, ScanResult.invoiceError
              ("Erreur lors de la creation de la facture: " ++ msg) rid)
      else
        match st.create
          { id := 0,
            qr_uuid := qr_uuid,
            qr_url := qr_url,
            company_id := company,
            scanned_by := userId,
            state := RecState.error,
            error_message := some ((dgi.error).getD "Erreur inconnue") } with
        | Except.error e => Except.error e
        | Except.ok (st1, rid) => Except.ok (st1, ScanResult.dgiError dgi.error rid)

/-- Results of the `retry_error` controller
(`/errors/<id>/retry` in src/controllers/mobile_api.py). -/
inductive RetryResult where
  | notFound
  | invalidState (current : RecState)
  | alreadyProcessed
  | retryFailed (msg : String)
  | created (invoice : Invoice)
deriving DecidableEq, Repr

/-- The `retry_error` controller: reject when the record is missing, not
in `error` state (INVALID_STATE), or already linked to an invoice
(ALREADY_PROCESSED); otherwise re-attempt ONLY downstream invoice
creation.  The fetch collaborator is passed in solely so that theorems
can state that it is never consulted. -/
def retry_error (fetchDgi : String → DgiData) (createInvoice : InvoiceOracle)
    (st : Store) (record_id : Nat) : Store × RetryResult :=
  match st.records.find? (fun r => r.id == record_id) with
  | none => (st, RetryResult.notFound)
  | some record =>
    if record.state ≠ RecState.error then
      (st, RetryResult.invalidState record.state)
    else if (record.invoice_id).isSome then
      (st, RetryResult.alreadyProcessed)
    else
      match createInvoice record with
      | Except.ok inv =>
        (st.writeRecord record_id (fun r =>
          { r with invoice_id := some inv.id, state := RecState.done }),
         RetryResult.created inv)
      | Except.error e =>
        (st.writeRecord record_id (fun r =>
          { r with error_message := some ("Nouvelle tentative echouee: " ++ e) }),
         RetryResult.retryFailed e)

/-- Digit groups joined by a separator (used to state C8: an amount
rendered with a chosen digit-group separator). -/
def joinGroups (sep : List Char) : List (List Char) → List Char
  | [] => []
  | [g] => g
  | g :: gs => g ++ sep ++ joinGroups sep gs

theorem takeHexRun_sound (n : Nat) (l m r : List Char)
    (h : takeHexRun n l = some (m, r)) :
    l = m ++ r ∧ m.length = n ∧ ∀ c ∈ m, isHexDigitCI c = true := by
  induction n generalizing l m r with
  | zero =>
    simp only [takeHexRun, Option.some.injEq, Prod.mk.injEq] at h
    obtain ⟨hm, hr⟩ := h
    subst hm; subst hr
    simp
  | succ n ih =>
    cases l with
    | nil => simp [takeHexRun] at h
    | cons c cs =>
      simp only [takeHexRun] at h
      by_cases hc : isHexDigitCI c
      · rw [if_pos hc] at h
        cases heq : takeHexRun n cs with
        | none => rw [heq] at h; simp at h
        | some p =>
          rw [heq] at h
          simp only [Option.map_some', Option.some.injEq, Prod.mk.injEq] at h
          obtain ⟨hm, hr⟩ := h
          obtain ⟨h1, h2, h3⟩ := ih cs p.1 p.2 (by rw [heq])
          subst hm; subst hr
          refine ⟨by simp [h1], by simp [h2], ?_⟩
          intro x hx
          rcases List.mem_cons.mp hx with hx | hx
          · subst hx; exact hc
          · exact h3 x hx
      · rw [if_neg hc] at h; simp at h

theorem takeHexRun_complete (n : Nat) (m r : List Char)
    (hlen : m.length = n) (hhex : ∀ c ∈ m, isHexDigitCI c = true) :
    takeHexRun n (m ++ r) = some (m, r) := by
  induction m generalizing n with
  | nil => subst hlen; simp [takeHexRun]
  | cons c cs ih =>
    subst hlen
    simp only [List.length_cons, List.cons_append, takeHexRun]
    rw [if_pos (hhex c (List.mem_cons_self c cs))]
    have := ih cs.length rfl (fun x hx => hhex x (List.mem_cons_of_mem c hx))
    simp [this]

theorem matchUuidGroups_sound (gs : List Nat) (l m r : List Char)
    (h : matchUuidGroups gs l = some (m, r)) :
    l = m ++ r ∧ groupsPattern gs m := by
  induction gs generalizing l m r with
  | nil => simp [matchUuidGroups] at h
  | cons n rest ih =>
    cases rest with
    | nil =>
      obtain ⟨h1, h2, h3⟩ := takeHexRun_sound n l m r h
      exact ⟨h1, h2, h3⟩
    | cons n2 rest2 =>
      rw [matchUuidGroups] at h
      cases heq : takeHexRun n l with
      | none => rw [heq] at h; exact Option.noConfusion h
      | some p =>
        obtain ⟨g, rr⟩ := p
        rw [heq] at h
        obtain ⟨hl, hlen, hhex⟩ := takeHexRun_sound n l g rr heq
        cases rr with
        | nil => exact Option.noConfusion h
        | cons d ds =>
          have h2 : (if d = '-' then
              match matchUuidGroups (n2 :: rest2) ds with
              | none => none
              | some (g2, r3) => some (g ++ d :: g2, r3)
            else none) = some (m, r) := h
          by_cases hd : d = '-'
          · rw [if_pos hd] at h2
            cases heq2 : matchUuidGroups (n2 :: rest2) ds with
            | none => rw [heq2] at h2; exact Option.noConfusion h2
            | some q =>
              obtain ⟨g2, r3⟩ := q
              rw [heq2] at h2
              simp only [Option.some.injEq, Prod.mk.injEq] at h2
              obtain ⟨hm, hrr⟩ := h2
              obtain ⟨hds, hpat⟩ := ih ds g2 r3 heq2
              subst hrr
              constructor
              · rw [hl, hds, ← hm]; simp
              · rw [← hm, hd]
                exact ⟨g, g2, rfl, hlen, hhex, hpat⟩
          · rw [if_neg hd] at h2; exact Option.noConfusion h2

theorem matchUuidGroups_complete (gs : List Nat) (m r : List Char)
    (h : groupsPattern gs m) :
    matchUuidGroups gs (m ++ r) = some (m, r) := by
  induction gs generalizing m r with
  | nil => simp [groupsPattern] at h
  | cons n rest ih =>
    cases rest with
    | nil =>
      obtain ⟨hlen, hhex⟩ := h
      simp only [matchUuidGroups]
      exact takeHexRun_complete n m r hlen hhex
    | cons n2 rest2 =>
      obtain ⟨g, t, hm, hlen, hhex, hpat⟩ := h
      subst hm
      rw [matchUuidGroups]
      rw [List.append_assoc, List.cons_append,
          takeHexRun_complete n g ('-' :: (t ++ r)) hlen hhex]
      show (if '-' = '-' then
          match matchUuidGroups (n2 :: rest2) (t ++ r) with
          | none => none
          | some (g2, r3) => some (g ++ '-' :: g2, r3)
        else none) = some (g ++ '-' :: t, r)
      rw [if_pos rfl, ih t r hpat]

theorem uuidPattern_ne_nil (m : List Char) (h : uuidPattern m) : m ≠ [] := by
  obtain ⟨g, t, hm, _, _, _⟩ := h
  subst hm
  simp

theorem searchUuid_sound (l m : List Char) (h : searchUuid l = some m) :
    ∃ pre post, l = pre ++ m ++ post ∧ uuidPattern m := by
  induction l with
  | nil => simp [searchUuid] at h
  | cons c cs ih =>
    rw [searchUuid] at h
    cases heq : matchUuidAt (c :: cs) with
    | some m0 =>
      rw [heq] at h
      have hm : m0 = m := Option.some.inj h
      subst hm
      unfold matchUuidAt at heq
      cases heq2 : matchUuidGroups uuidGroupSpec (c :: cs) with
      | none => rw [heq2] at heq; exact Option.noConfusion heq
      | some p =>
        obtain ⟨g, r⟩ := p
        rw [heq2] at heq
        simp only [Option.map_some', Option.some.injEq] at heq
        obtain ⟨hl, hpat⟩ := matchUuidGroups_sound _ _ _ _ heq2
        subst heq
        exact ⟨[], r, by rw [hl]; rfl, hpat⟩
    | none =>
      rw [heq] at h
      obtain ⟨pre, post, hl, hpat⟩ := ih h
      exact ⟨c :: pre, post, by simp [hl], hpat⟩

theorem searchUuid_complete (m pre post l : List Char) (hm : uuidPattern m)
    (hl : l = pre ++ m ++ post) : (searchUuid l).isSome = true := by
  induction pre generalizing l with
  | nil =>
    subst hl
    cases hmm : m with
    | nil => exact absurd hmm (uuidPattern_ne_nil m hm)
    | cons c cs =>
      have hmatch : matchUuidAt (m ++ post) = some m := by
        unfold matchUuidAt
        rw [matchUuidGroups_complete uuidGroupSpec m post hm]
        rfl
      rw [hmm] at hmatch
      simp only [List.cons_append] at hmatch
      simp only [List.nil_append, hmm, List.cons_append]
      rw [searchUuid, hmatch]
      rfl
  | cons c pre ih =>
    subst hl
    simp only [List.cons_append]
    rw [searchUuid]
    cases heq : matchUuidAt (c :: (pre ++ m ++ post)) with
    | some m0 => rfl
    | none => exact ih (pre ++ m ++ post) rfl

/-- C4: a string containing a 5-group hyphenated hex substring (8-4-4-4-12,
any letter case) makes `extract_uuid_from_url` return such a substring
lowercased; a string containing none makes it return `none` — and, being a
total Lean function, it raises no exception. -/
theorem c4_extract_uuid_correct (s : String) :
    (extract_uuid_from_url s = none ↔
      ¬ ∃ pre mid post, s.data = pre ++ mid ++ post ∧ uuidPattern mid) ∧
    (∀ u, extract_uuid_from_url s = some u →
      ∃ pre mid post, s.data = pre ++ mid ++ post ∧ uuidPattern mid ∧
        u = String.mk (mid.map Char.toLower)) := by
  constructor
  · constructor
    · rintro hnone ⟨pre, mid, post, hdecomp, hpat⟩
      have hsome := searchUuid_complete mid pre post s.data hpat hdecomp
      unfold extract_uuid_from_url at hnone
      cases heq : searchUuid s.data with
      | none => rw [heq] at hsome; exact Bool.noConfusion hsome
      | some m0 => rw [heq] at hnone; exact Option.noConfusion hnone
    · intro hno
      cases heq : extract_uuid_from_url s with
      | none => rfl
      | some u =>
        unfold extract_uuid_from_url at heq
        cases heq2 : searchUuid s.data with
        | none => rw [heq2] at heq; exact Option.noConfusion heq
        | some m0 =>
          obtain ⟨pre, post, hd, hp⟩ := searchUuid_sound _ _ heq2
          exact absurd ⟨pre, m0, post, hd, hp⟩ hno
  · intro u hu
    unfold extract_uuid_from_url at hu
    cases heq2 : searchUuid s.data with
    | none => rw [heq2] at hu; exact Option.noConfusion hu
    | some m0 =>
      rw [heq2] at hu
      simp only [Option.map_some', Option.some.injEq] at hu
      obtain ⟨pre, post, hd, hp⟩ := searchUuid_sound _ _ heq2
      exact ⟨pre, m0, post, hd, hp, hu.symm⟩

/-- C4 witness: the uppercase UUID in the spec example is found and
lowercased. -/
theorem c4_extract_uuid_correct_witness :
    ∃ pre mid post,
      (String.data "https://x/019BD62C-467E-7000-82AC-45C8389C7F05") =
        pre ++ mid ++ post ∧ uuidPattern mid ∧
      "019bd62c-467e-7000-82ac-45c8389c7f05" = String.mk (mid.map Char.toLower) :=
  (c4_extract_uuid_correct "https://x/019BD62C-467E-7000-82AC-45C8389C7F05").2
    "019bd62c-467e-7000-82ac-45c8389c7f05" rfl

theorem check_duplicate_eq_none (st : Store) (company : Nat) (uuid : String)
    (hfresh : ∀ x ∈ st.records, ¬(x.qr_uuid = uuid ∧ x.company_id = company)) :
    check_duplicate st company uuid = none := by
  unfold check_duplicate
  rw [List.find?_eq_none]
  intro x hx
  simp only [Bool.and_eq_true, beq_iff_eq]
  intro hcon
  exact hfresh x hx ⟨hcon.1.1, hcon.2⟩

theorem store_any_uuid_eq_false (st : Store) (company : Nat) (uuid : String)
    (hfresh : ∀ x ∈ st.records, ¬(x.qr_uuid = uuid ∧ x.company_id = company)) :
    (st.records.any (fun x => x.qr_uuid == uuid && x.company_id == company)) = false := by
  rw [List.any_eq_false]
  intro x hx
  simp only [Bool.and_eq_true, beq_iff_eq]
  intro hcon
  exact hfresh x hx ⟨hcon.1, hcon.2⟩

/-- C3: when a `done`/`processed` record exists for the scanned identifier
and company, `process_qr_scan` returns a DUPLICATE result whose snapshot
is the existing record with `duplicate_count` incremented by exactly one
and the duplicate-attempt stamps set, updates only that record in the
store, and creates no new record (record count and next id unchanged);
with `duplicate_count = 0` before the rescan the result reports 1. -/
theorem c3_duplicate_path (fetchDgi : String → DgiData) (ci : InvoiceOracle)
    (st : Store) (company userId now : Nat) (url uuid : String) (r : ScanRecord)
    (hext : extract_uuid_from_url url = some uuid)
    (hdup : check_duplicate st company uuid = some r) :
    process_qr_scan fetchDgi ci st company userId now url =
      Except.ok
        (st.writeRecord r.id (fun x => { x with
            duplicate_count := r.duplicate_count + 1,
            last_duplicate_attempt := some now,
            last_duplicate_user_id := some userId }),
         ScanResult.duplicate (r.duplicate_count + 1)
           (snapshotOf { r with
             duplicate_count := r.duplicate_count + 1,
             last_duplicate_attempt := some now,
             last_duplicate_user_id := some userId })) ∧
    (st.writeRecord r.id (fun x => { x with
        duplicate_count := r.duplicate_count + 1,
        last_duplicate_attempt := some now,
        last_duplicate_user_id := some userId })).records.length =
      st.records.length ∧
    (st.writeRecord r.id (fun x => { x with
        duplicate_count := r.duplicate_count + 1,
        last_duplicate_attempt := some now,
        last_duplicate_user_id := some userId })).nextId = st.nextId := by
  refine ⟨?_, ?_, rfl⟩
  · simp only [process_qr_scan, hext, hdup]
  · simp [Store.writeRecord]

/-- C3 witness: concrete store with one `done` record with
`duplicate_count = 0`; the rescan reports `duplicate_count = 1`, stamps
the attempt, and adds no record. -/
theorem c3_duplicate_path_witness :
    process_qr_scan (fun _ => {}) (fun _ => Except.error "unused")
      { records := [{ id := 7, qr_uuid := "01234567-89ab-cdef-0123-456789abcdef",
                      qr_url := "u", company_id := 1, state := RecState.done }],
        nextId := 8 } 1 5 100
      "https://x/01234567-89ab-cdef-0123-456789abcdef" =
      Except.ok
        ({ records := [{ id := 7, qr_uuid := "01234567-89ab-cdef-0123-456789abcdef",
                         qr_url := "u", company_id := 1, state := RecState.done,
                         duplicate_count := 1, last_duplicate_attempt := some 100,
                         last_duplicate_user_id := some 5 }],
           nextId := 8 },
         ScanResult.duplicate 1
           (snapshotOf { id := 7, qr_uuid := "01234567-89ab-cdef-0123-456789abcdef",
                         qr_url := "u", company_id := 1, state := RecState.done,
                         duplicate_count := 1, last_duplicate_attempt := some 100,
                         last_duplicate_user_id := some 5 })) :=
  (c3_duplicate_path (fun _ => {}) (fun _ => Except.error "unused")
    { records := [{ id := 7, qr_uuid := "01234567-89ab-cdef-0123-456789abcdef",
                    qr_url := "u", company_id := 1, state := RecState.done }],
      nextId := 8 } 1 5 100
    "https://x/01234567-89ab-cdef-0123-456789abcdef"
    "01234567-89ab-cdef-0123-456789abcdef"
    { id := 7, qr_uuid := "01234567-89ab-cdef-0123-456789abcdef",
      qr_url := "u", company_id := 1, state := RecState.done }
    rfl rfl).1

/-- C5: when the identifier is fresh, the fetch succeeds and the
downstream invoice-creation step raises, `process_qr_scan` returns
normally (the exception does not escape) with an INVOICE_ERROR result
carrying the new record id, `success = false`, and the persisted record
is in state `error` with the exception message stored in
`error_message`. -/
theorem c5_invoice_error_path (fetchDgi : String → DgiData) (ci : InvoiceOracle)
    (st : Store) (company userId now : Nat) (url uuid msg : String)
    (hext : extract_uuid_from_url url = some uuid)
    (hfresh : ∀ x ∈ st.records, ¬(x.qr_uuid = uuid ∧ x.company_id = company))
    (hfetch : (fetchDgi url).success = true)
    (hci : ∀ rec, ci rec = Except.error msg) :
    ∃ st2 res,
      process_qr_scan fetchDgi ci st company userId now url = Except.ok (st2, res) ∧
      res = ScanResult.invoiceError
        ("Erreur lors de la creation de la facture: " ++ msg) st.nextId ∧
      res.error_code = some "INVOICE_ERROR" ∧
      res.success = false ∧
      ∃ rec, rec ∈ st2.records ∧ rec.id = st.nextId ∧
        rec.state = RecState.error ∧ rec.error_message = some msg := by
  have hdup := check_duplicate_eq_none st company uuid hfresh
  have hany := store_any_uuid_eq_false st company uuid hfresh
  simp only [process_qr_scan, hext, hdup, hfetch, if_true, Store.create, hany,
    Bool.false_eq_true, if_false, hci]
  refine ⟨_, _, rfl, rfl, rfl, rfl, ?_⟩
  simp only [Store.writeRecord]
  refine ⟨_, List.mem_map_of_mem _ (List.mem_append_right _ (List.mem_singleton_self _)),
    ?_, ?_, ?_⟩ <;> simp

/-- C5 witness: empty store, fetch returning an empty successful field
set, invoice oracle that always raises "no journal". -/
theorem c5_invoice_error_path_witness :
    ∃ st2 res,
      process_qr_scan (fun _ => {}) (fun _ => Except.error "no journal")
        { records := [], nextId := 1 } 1 5 100
        "https://x/01234567-89ab-cdef-0123-456789abcdef" = Except.ok (st2, res) ∧
      res = ScanResult.invoiceError
        ("Erreur lors de la creation de la facture: " ++ "no journal") 1 ∧
      res.error_code = some "INVOICE_ERROR" ∧
      res.success = false ∧
      ∃ rec, rec ∈ st2.records ∧ rec.id = 1 ∧
        rec.state = RecState.error ∧ rec.error_message = some "no journal" :=
  c5_invoice_error_path (fun _ => {}) (fun _ => Except.error "no journal")
    { records := [], nextId := 1 } 1 5 100
    "https://x/01234567-89ab-cdef-0123-456789abcdef"
    "01234567-89ab-cdef-0123-456789abcdef" "no journal"
    rfl (by intro x hx; simp at hx) rfl (fun _ => rfl)

/-- C1 counterexample: a record persisted in state `error` for
`01234567-89ab-cdef-0123-456789abcdef` DOES prevent a later scan of the
same identifier from creating a new record, even with a successful fetch
and a successful invoice collaborator: the `unique(qr_uuid, company_id)`
constraint covers every state, so the draft insert raises an
IntegrityError instead of reaching `done`. -/
theorem c1_error_record_blocks_counterexample :
    process_qr_scan (fun _ => {})
      (fun _ => Except.ok { id := 9, name := "INV", state := "posted",
                            amount_total := 0, partner_name := "P" })
      { records := [{ id := 1, qr_uuid := "01234567-89ab-cdef-0123-456789abcdef",
                      qr_url := "u", company_id := 1, state := RecState.error }],
        nextId := 2 } 1 5 100
      "https://x/01234567-89ab-cdef-0123-456789abcdef" =
      Except.error (PyExc.integrityError sqlConstraintMsg) := rfl

/-- C1 (amended): uniqueness of `(qr_uuid, company_id)` is enforced by the
SQL constraint among ALL records regardless of state, so when the only
records for an identifier are in state `error`, a later `process_qr_scan`
of that identifier passes the duplicate check but always aborts with an
IntegrityError at record creation — whatever the fetch and invoice
collaborators do — instead of creating a new record. -/
theorem c1_error_record_blocks (fetchDgi : String → DgiData) (ci : InvoiceOracle)
    (st : Store) (company userId now : Nat) (url uuid : String) (r : ScanRecord)
    (hext : extract_uuid_from_url url = some uuid)
    (hr : r ∈ st.records) (hru : r.qr_uuid = uuid) (hrc : r.company_id = company)
    (hall : ∀ x ∈ st.records, x.qr_uuid = uuid → x.company_id = company →
      x.state = RecState.error) :
    process_qr_scan fetchDgi ci st company userId now url =
      Except.error (PyExc.integrityError sqlConstraintMsg) := by
  have hdup : check_duplicate st company uuid = none := by
    unfold check_duplicate
    rw [List.find?_eq_none]
    intro x hx
    simp only [Bool.and_eq_true, beq_iff_eq, Bool.or_eq_true]
    rintro ⟨⟨hxu, hxs⟩, hxc⟩
    have hxe := hall x hx hxu hxc
    rw [hxe] at hxs
    rcases hxs with hs | hs <;> exact absurd hs (by simp)
  have hany : (st.records.any
      (fun x => x.qr_uuid == uuid && x.company_id == company)) = true := by
    rw [List.any_eq_true]
    exact ⟨r, hr, by simp [hru, hrc]⟩
  cases hsucc : (fetchDgi url).success with
  | true => simp only [process_qr_scan, hext, hdup, hsucc, if_true, Store.create, hany]
  | false =>
    simp only [process_qr_scan, hext, hdup, hsucc, Bool.false_eq_true, if_false,
      Store.create, hany, if_true]

/-- C1 witness: concrete instantiation of the amended theorem (error
record present, fetch succeeding, invoice collaborator raising). -/
theorem c1_error_record_blocks_witness :
    process_qr_scan (fun _ => {}) (fun _ => Except.error "unused")
      { records := [{ id := 3, qr_uuid := "01234567-89ab-cdef-0123-456789abcdef",
                      qr_url := "u2", company_id := 4, state := RecState.error }],
        nextId := 5 } 4 6 200
      "https://y/01234567-89ab-cdef-0123-456789abcdef" =
      Except.error (PyExc.integrityError sqlConstraintMsg) :=
  c1_error_record_blocks (fun _ => {}) (fun _ => Except.error "unused")
    { records := [{ id := 3, qr_uuid := "01234567-89ab-cdef-0123-456789abcdef",
                    qr_url := "u2", company_id := 4, state := RecState.error }],
      nextId := 5 } 4 6 200
    "https://y/01234567-89ab-cdef-0123-456789abcdef"
    "01234567-89ab-cdef-0123-456789abcdef"
    { id := 3, qr_uuid := "01234567-89ab-cdef-0123-456789abcdef",
      qr_url := "u2", company_id := 4, state := RecState.error }
    rfl (List.mem_singleton_self _) rfl rfl
    (by intro x hx _ _; rw [List.mem_singleton] at hx; rw [hx])

/-- C7: the manual retry endpoint rejects outright — without consulting
the invoice collaborator — when the record is not in `error` state
(INVALID_STATE) or already has a linked invoice (ALREADY_PROCESSED); when
the record is in `error` with no linked invoice it re-attempts only
downstream invoice creation; and its outcome never depends on the fetch
collaborator, i.e. it never re-fetches page content. -/
theorem c7_retry_error_spec (f1 f2 : String → DgiData) (ci ci2 : InvoiceOracle)
    (st : Store) (rid : Nat) :
    retry_error f1 ci st rid = retry_error f2 ci st rid ∧
    (∀ r, st.records.find? (fun x => x.id == rid) = some r →
      (r.state ≠ RecState.error →
        retry_error f1 ci st rid = (st, RetryResult.invalidState r.state) ∧
        retry_error f1 ci st rid = retry_error f1 ci2 st rid) ∧
      (r.state = RecState.error → (r.invoice_id).isSome = true →
        retry_error f1 ci st rid = (st, RetryResult.alreadyProcessed) ∧
        retry_error f1 ci st rid = retry_error f1 ci2 st rid) ∧
      (r.state = RecState.error → r.invoice_id = none →
        retry_error f1 ci st rid =
          (match ci r with
           | Except.ok inv =>
             (st.writeRecord rid (fun x =>
               { x with invoice_id := some inv.id, state := RecState.done }),
              RetryResult.created inv)
           | Except.error e =>
             (st.writeRecord rid (fun x =>
               { x with error_message := some ("Nouvelle tentative echouee: " ++ e) }),
              RetryResult.retryFailed e)))) := by
  refine ⟨rfl, ?_⟩
  intro r hr
  refine ⟨?_, ?_, ?_⟩
  · intro hs
    constructor <;> simp only [retry_error, hr, if_pos hs]
  · intro hs hi
    have h1 : ¬ r.state ≠ RecState.error := fun hne => hne hs
    constructor <;> simp only [retry_error, hr, if_neg h1, if_pos hi]
  · intro hs hi
    have h1 : ¬ r.state ≠ RecState.error := fun hne => hne hs
    have h2 : ¬ ((r.invoice_id).isSome = true) := by simp [hi]
    simp only [retry_error, hr, if_neg h1, if_neg h2]

/-- C7 witness: a record in state `done` is rejected with INVALID_STATE,
identically for two different invoice collaborators. -/
theorem c7_retry_error_spec_witness :
    retry_error (fun _ => {}) (fun _ => Except.error "boom")
      { records := [{ id := 1, qr_uuid := "u", qr_url := "q", company_id := 1,
                      state := RecState.done }], nextId := 2 } 1 =
      ({ records := [{ id := 1, qr_uuid := "u", qr_url := "q", company_id := 1,
                       state := RecState.done }], nextId := 2 },
       RetryResult.invalidState RecState.done) :=
  (((c7_retry_error_spec (fun _ => {}) (fun _ => {})
      (fun _ => Except.error "boom")
      (fun _ => Except.ok { id := 2, name := "I", state := "posted",
                            amount_total := 0, partner_name := "P" })
      { records := [{ id := 1, qr_uuid := "u", qr_url := "q", company_id := 1,
                      state := RecState.done }], nextId := 2 } 1).2
    { id := 1, qr_uuid := "u", qr_url := "q", company_id := 1,
      state := RecState.done } rfl).1 (by simp)).1

/-- C9: `_launch_playwright_browser` with the default 3 retries performs
at most three launch attempts (the outcome depends only on attempts
1..3), returns the browser of the first successful attempt, sleeps
`attempt * 3` seconds between consecutive attempts (3s after the first
failure, 6s after the second), and when every attempt fails re-raises
the error of the last attempt. -/
theorem c9_launch_retry (launch l2 : LaunchOracle) (b : Nat) (e1 e2 e3 : String) :
    (launch 1 = Except.ok b →
      _launch_playwright_browser launch 3 = Except.ok (b, [])) ∧
    (launch 1 = Except.error e1 → launch 2 = Except.ok b →
      _launch_playwright_browser launch 3 = Except.ok (b, [3])) ∧
    (launch 1 = Except.error e1 → launch 2 = Except.error e2 →
      launch 3 = Except.ok b →
      _launch_playwright_browser launch 3 = Except.ok (b, [3, 6])) ∧
    (launch 1 = Except.error e1 → launch 2 = Except.error e2 →
      launch 3 = Except.error e3 →
      _launch_playwright_browser launch 3 = Except.error (some e3, [3, 6])) ∧
    (launch 1 = l2 1 → launch 2 = l2 2 → launch 3 = l2 3 →
      _launch_playwright_browser launch 3 = _launch_playwright_browser l2 3) := by
  refine ⟨?_, ?_, ?_, ?_, ?_⟩
  · intro h1
    simp [_launch_playwright_browser, launchFrom, h1]
  · intro h1 h2
    simp [_launch_playwright_browser, launchFrom, h1, h2]
  · intro h1 h2 h3
    simp [_launch_playwright_browser, launchFrom, h1, h2, h3]
  · intro h1 h2 h3
    simp [_launch_playwright_browser, launchFrom, h1, h2, h3]
  · intro h1 h2 h3
    simp only [_launch_playwright_browser, launchFrom, h1, h2, h3]

/-- C9 witness: first attempt fails, second succeeds after a single
3-second wait. -/
theorem c9_launch_retry_witness :
    _launch_playwright_browser
      (fun n => if n == 2 then Except.ok 7 else Except.error "boom") 3 =
      Except.ok (7, [3]) :=
  (c9_launch_retry (fun n => if n == 2 then Except.ok 7 else Except.error "boom")
    (fun _ => Except.error "x") 7 "boom" "x" "y").2.1 rfl rfl

/-- C6: for every transport behaviour — timeouts, connection errors,
non-200 statuses, malformed JSON, malformed values, unexpected
exceptions — the fast-path fetcher returns normally with either a data
dictionary or the no-usable-content signal `none`: its whole body is
wrapped in `except Exception: return None`, so no exception escapes. -/
theorem c6_fetch_requests_never_raises (t : Transport) (url : String) :
    ∃ v : Option DgiData, _fetch_dgi_with_requests t url = Except.ok v := by
  unfold _fetch_dgi_with_requests
  cases h : fetchRequestsBody t url with
  | ok v => exact ⟨v, rfl⟩
  | error e => exact ⟨none, rfl⟩

/-- C2 (code bug): the content extractor is NOT exception-free — on a
date that has the `\d{2}/\d{2}/\d{4}` shape but is not a valid calendar
date (31/02/2024) the unguarded `strptime` call raises a ValueError that
escapes `_extract_dgi_data_from_text`, aborting the whole extraction
even though the supplier field had already matched earlier in the text. -/
theorem c2_extractor_raises_on_invalid_calendar_date :
    _extract_dgi_data_from_text
      "FOURNISSEUR:\nACME - X1\nDATE DE FACTURATION:\n31/02/2024" "" =
      Except.error (PyExc.valueError "invalid date for format %d/%m/%Y") := rfl

theorem takeWhile_append_all (p : Char → Bool) (xs ys : List Char)
    (h : ∀ x ∈ xs, p x = true) :
    (xs ++ ys).takeWhile p = xs ++ ys.takeWhile p := by
  induction xs with
  | nil => simp
  | cons a l ih =>
    simp only [List.cons_append, List.takeWhile_cons, h a (List.mem_cons_self a l),
      if_true, List.cons.injEq, true_and]
    exact ih (fun x hx => h x (List.mem_cons_of_mem a hx))

theorem dropWhile_append_all (p : Char → Bool) (xs ys : List Char)
    (h : ∀ x ∈ xs, p x = true) :
    (xs ++ ys).dropWhile p = ys.dropWhile p := by
  induction xs with
  | nil => simp
  | cons a l ih =>
    simp only [List.cons_append, List.dropWhile_cons, h a (List.mem_cons_self a l),
      if_true]
    exact ih (fun x hx => h x (List.mem_cons_of_mem a hx))

theorem dropWhile_eq_self_of_head_false (p : Char → Bool) (c : Char) (cs : List Char)
    (h : p c = false) : (c :: cs).dropWhile p = c :: cs := by
  simp [List.dropWhile_cons, h]

theorem digit_not_space (c : Char) (h : c.isDigit = true) : pyIsSpace c = false := by
  by_contra hne
  rw [Bool.not_eq_false] at hne
  unfold pyIsSpace at hne
  simp only [Bool.or_eq_true, beq_iff_eq] at hne
  rcases hne with ((((((h1 | h1) | h1) | h1) | h1) | h1) | h1) <;> subst h1 <;>
    exact absurd h (by decide)

theorem digit_not_separator (c : Char) (h : c.isDigit = true) :
    (!(c == ' ' || c == Char.ofNat 160)) = true := by
  simp only [Bool.not_eq_true', Bool.or_eq_false_iff, beq_eq_false_iff_ne, ne_eq]
  constructor
  · intro hc; subst hc; exact absurd h (by decide)
  · intro hc; subst hc; exact absurd h (by decide)

theorem sep_is_space (c : Char) (h : c = ' ' ∨ c = Char.ofNat 160) :
    pyIsSpace c = true := by
  rcases h with h | h <;> subst h <;> decide

theorem joinGroups_all_digit_or_space (sep : List Char) (gs : List (List Char))
    (hsep : ∀ c ∈ sep, c = ' ' ∨ c = Char.ofNat 160)
    (hg : ∀ g ∈ gs, ∀ c ∈ g, c.isDigit = true) :
    ∀ c ∈ joinGroups sep gs, isDigitOrSpace c = true := by
  induction gs with
  | nil => intro c hc; simp [joinGroups] at hc
  | cons g rest ih =>
    cases rest with
    | nil =>
      intro c hc
      simp only [joinGroups] at hc
      exact (Bool.or_eq_true _ _).mpr (Or.inl (hg g (List.mem_singleton_self g) c hc))
    | cons g2 rest2 =>
      intro c hc
      simp only [joinGroups, List.append_assoc, List.mem_append] at hc
      rcases hc with hc | hc | hc
      · exact (Bool.or_eq_true _ _).mpr
          (Or.inl (hg g (List.mem_cons_self g (g2 :: rest2)) c hc))
      · exact (Bool.or_eq_true _ _).mpr (Or.inr (sep_is_space c (hsep c hc)))
      · exact ih (fun x hx => hg x (List.mem_cons_of_mem g hx)) c hc

theorem stripSeparators_append (xs ys : List Char) :
    stripSeparators (xs ++ ys) = stripSeparators xs ++ stripSeparators ys := by
  simp [stripSeparators]

theorem stripSeparators_all_digit (l : List Char)
    (h : ∀ c ∈ l, c.isDigit = true) : stripSeparators l = l := by
  unfold stripSeparators
  rw [List.filter_eq_self]
  intro c hc
  exact digit_not_separator c (h c hc)

theorem stripSeparators_all_sep (l : List Char)
    (h : ∀ c ∈ l, c = ' ' ∨ c = Char.ofNat 160) : stripSeparators l = [] := by
  unfold stripSeparators
  rw [List.filter_eq_nil_iff]
  intro c hc
  rcases h c hc with h1 | h1 <;> subst h1 <;> decide

theorem joinGroups_strip (sep : List Char) (gs : List (List Char))
    (hsep : ∀ c ∈ sep, c = ' ' ∨ c = Char.ofNat 160)
    (hg : ∀ g ∈ gs, ∀ c ∈ g, c.isDigit = true) :
    stripSeparators (joinGroups sep gs) = List.flatten gs := by
  induction gs with
  | nil => simp [joinGroups, stripSeparators]
  | cons g rest ih =>
    cases rest with
    | nil =>
      simp only [joinGroups, List.flatten_cons, List.flatten_nil, List.append_nil]
      exact stripSeparators_all_digit g (hg g (List.mem_singleton_self g))
    | cons g2 rest2 =>
      simp only [joinGroups, List.flatten_cons, stripSeparators_append]
      rw [stripSeparators_all_digit g (hg g (List.mem_cons_self g (g2 :: rest2))),
        stripSeparators_all_sep sep hsep,
        ih (fun x hx => hg x (List.mem_cons_of_mem g hx))]
      simp

theorem pyStrip_all_digit (l : List Char) (h : ∀ c ∈ l, c.isDigit = true) :
    pyStrip l = l := by
  unfold pyStrip
  have hfalse : ∀ m : List Char, (∀ c ∈ m, c.isDigit = true) →
      m.dropWhile pyIsSpace = m := by
    intro m hm
    cases m with
    | nil => rfl
    | cons c cs =>
      exact dropWhile_eq_self_of_head_false pyIsSpace c cs
        (digit_not_space c (hm c (List.mem_cons_self c cs)))
  rw [hfalse l h, hfalse l.reverse (fun c hc => h c (List.mem_reverse.mp hc)),
    List.reverse_reverse]

theorem join_all_digit (gs : List (List Char))
    (hg : ∀ g ∈ gs, ∀ c ∈ g, c.isDigit = true) :
    ∀ c ∈ List.flatten gs, c.isDigit = true := by
  intro c hc
  obtain ⟨g, hgmem, hcg⟩ := List.mem_flatten.mp hc
  exact hg g hgmem c hcg

theorem stripLabelCI_self (l r : List Char) : stripLabelCI l (l ++ r) = some r := by
  induction l with
  | nil => rfl
  | cons c cs ih => simp [stripLabelCI, ih]

theorem searchPattern_here {α : Type} (c : Char) (cs rest : List Char)
    (tailFn : List Char → Option α) (a : α)
    (htail : tailFn rest = some a) :
    searchPattern (c :: cs) tailFn ((c :: cs) ++ rest) = some a := by
  have hstrip := stripLabelCI_self (c :: cs) rest
  simp only [List.cons_append] at hstrip ⊢
  rw [searchPattern]
  simp only [hstrip, htail]

theorem joinGroups_head (sep : List Char) (g : List Char) (gs : List (List Char))
    (c : Char) (cs : List Char) (hc : g = c :: cs) :
    ∃ t, joinGroups sep (g :: gs) = c :: t := by
  cases gs with
  | nil => exact ⟨cs, by simp [joinGroups, hc]⟩
  | cons g2 r =>
    exact ⟨cs ++ sep ++ joinGroups sep (g2 :: r), by simp [joinGroups, hc]⟩

theorem montantTail_rendered (amt suf : List Char) (c : Char) (cs : List Char)
    (hamt : ∀ x ∈ amt, isDigitOrSpace x = true)
    (hhead : amt = c :: cs) (hcd : c.isDigit = true)
    (hsuf : suf = ['F', 'C', 'F', 'A'] ∨ suf = ['C', 'F', 'A']) :
    montantTail ('\n' :: (amt ++ ' ' :: suf)) = some (amt ++ [' ']) := by
  have hrest : List.dropWhile pyIsSpace ('\n' :: (amt ++ ' ' :: suf)) =
      amt ++ ' ' :: suf := by
    rw [List.dropWhile_cons]
    simp only [show pyIsSpace '\n' = true from rfl, if_true]
    rw [hhead, List.cons_append]
    exact dropWhile_eq_self_of_head_false pyIsSpace c (cs ++ ' ' :: suf)
      (digit_not_space c hcd)
  have hsuftake : List.takeWhile isDigitOrSpace (' ' :: suf) = [' '] := by
    rcases hsuf with h | h <;> subst h <;> rfl
  have hsufdrop : List.dropWhile isDigitOrSpace (' ' :: suf) = suf := by
    rcases hsuf with h | h <;> subst h <;> rfl
  have hd : List.takeWhile isDigitOrSpace (amt ++ ' ' :: suf) = amt ++ [' '] := by
    rw [takeWhile_append_all isDigitOrSpace amt (' ' :: suf) hamt, hsuftake]
  have htl : List.dropWhile isDigitOrSpace (amt ++ ' ' :: suf) = suf := by
    rw [dropWhile_append_all isDigitOrSpace amt (' ' :: suf) hamt, hsufdrop]
  have hne : ((amt ++ [' ']).isEmpty) = false := by rw [hhead]; rfl
  have hstart : (startsWithCI suf ['F', 'C', 'F', 'A'] ||
      startsWithCI suf ['C', 'F', 'A']) = true := by
    rcases hsuf with h | h <;> subst h <;> decide
  simp only [montantTail, hrest, hd, htl, hne, Bool.not_false, if_true, hstart]

/-- C8: parsing of the total-amount field is invariant under the choice
of digit-group separator: for digit groups joined by ordinary spaces, by
no-break spaces, or by nothing at all (any separator made of those two
space characters), the extracted amount equals the value of the
concatenated digits, independent of the separator; in particular the
three spec examples all parse to 1677566 through the full extractor. -/
theorem c8_amount_separator_invariant (sep : List Char) (gs : List (List Char))
    (suf : List Char)
    (hsep : ∀ c ∈ sep, c = ' ' ∨ c = Char.ofNat 160)
    (hgs : gs ≠ [])
    (hgne : ∀ g ∈ gs, g ≠ [])
    (hgd : ∀ g ∈ gs, ∀ c ∈ g, c.isDigit = true)
    (hsuf : suf = ['F', 'C', 'F', 'A'] ∨ suf = ['C', 'F', 'A']) :
    extractMontant (("MONTANT TTC:".data) ++
        ('\n' :: (joinGroups sep gs ++ ' ' :: suf))) =
      Except.ok (some (digitsToNat (List.flatten gs))) ∧
    Except.map (fun d => d.amount_ttc)
      (_extract_dgi_data_from_text "MONTANT TTC:\n1 677 566 FCFA" "") =
      Except.ok (some 1677566) ∧
    Except.map (fun d => d.amount_ttc)
      (_extract_dgi_data_from_text "MONTANT TTC:\n1 677 566 CFA" "") =
      Except.ok (some 1677566) ∧
    Except.map (fun d => d.amount_ttc)
      (_extract_dgi_data_from_text "MONTANT TTC:\n1677566 FCFA" "") =
      Except.ok (some 1677566) := by
  refine ⟨?_, rfl, rfl, rfl⟩
  obtain ⟨g, rest, rfl⟩ : ∃ g rest, gs = g :: rest := by
    cases gs with
    | nil => exact absurd rfl hgs
    | cons g rest => exact ⟨g, rest, rfl⟩
  obtain ⟨c, cs, hg⟩ : ∃ c cs, g = c :: cs := by
    cases hgg : g with
    | nil => exact absurd hgg (hgne g (List.mem_cons_self g rest))
    | cons c cs => exact ⟨c, cs, rfl⟩
  have hcd : c.isDigit = true :=
    hgd g (List.mem_cons_self g rest) c (by rw [hg]; exact List.mem_cons_self c cs)
  have hamt : ∀ x ∈ joinGroups sep (g :: rest), isDigitOrSpace x = true :=
    joinGroups_all_digit_or_space sep (g :: rest) hsep hgd
  obtain ⟨t, hjoin⟩ := joinGroups_head sep g rest c cs hg
  have htail := montantTail_rendered (joinGroups sep (g :: rest)) suf c t hamt hjoin hcd hsuf
  have hsearch : searchPattern ("MONTANT TTC:".data) montantTail
      (("MONTANT TTC:".data) ++ ('\n' :: (joinGroups sep (g :: rest) ++ ' ' :: suf))) =
      some (joinGroups sep (g :: rest) ++ [' ']) :=
    searchPattern_here 'M' ("ONTANT TTC:".data) _ montantTail _ htail
  unfold extractMontant
  rw [hsearch]
  show Except.map some
      (pyFloatDigits (pyStrip (stripSeparators
        (joinGroups sep (g :: rest) ++ [' '])))) =
    Except.ok (some (digitsToNat (List.flatten (g :: rest))))
  rw [stripSeparators_append, joinGroups_strip sep (g :: rest) hsep hgd,
    show stripSeparators [' '] = [] from rfl, List.append_nil,
    pyStrip_all_digit _ (join_all_digit (g :: rest) hgd)]
  have h1 : (List.flatten (g :: rest)).isEmpty = false := by
    rw [List.flatten_cons, hg]; rfl
  have h2 : (List.flatten (g :: rest)).all Char.isDigit = true := by
    rw [List.all_eq_true]; exact join_all_digit (g :: rest) hgd
  unfold pyFloatDigits
  rw [if_pos (by rw [h1, h2]; rfl)]
  rfl

/-- C8 witness: the spec example 1 677 566 with ordinary spaces. -/
theorem c8_amount_separator_invariant_witness :
    extractMontant (("MONTANT TTC:".data) ++
        ('\n' :: (joinGroups [' '] [['1'], ['6', '7', '7'], ['5', '6', '6']] ++
          ' ' :: ['F', 'C', 'F', 'A']))) =
      Except.ok (some (digitsToNat
        (List.flatten [['1'], ['6', '7', '7'], ['5', '6', '6']]))) :=
  (c8_amount_separator_invariant [' '] [['1'], ['6', '7', '7'], ['5', '6', '6']]
    ['F', 'C', 'F', 'A'] (by decide) (by decide) (by decide) (by decide)
    (Or.inl rfl)).1

/-- C10 counterexample: the render path yields body text
("DATE DE FACTURATION:\n31/02/2024"), yet `process_qr_scan` does NOT
treat the fetch as successful: the extractor raises on the
calendar-invalid date, `fetch_invoice_data_from_dgi` converts that into
a `success: False` dict, and the scan terminates as DGI_ERROR with an
`error`-state record — no draft record, no invoice-creation attempt. -/
theorem c10_success_marker_counterexample :
    process_qr_scan
      (fetch_invoice_data_from_dgi
        { get := fun _ => Except.error (PyExc.requestException "down"),
          soupText := fun s => s }
        (RenderOutcome.page "DATE DE FACTURATION:\n31/02/2024" ""))
      (fun _ => Except.ok { id := 9, name := "I", state := "posted",
                            amount_total := 0, partner_name := "P" })
      { records := [], nextId := 1 } 1 5 100
      "https://x/01234567-89ab-cdef-0123-456789abcdef" =
      Except.ok
        ({ records :=
             [{ id := 1,
                qr_uuid := "01234567-89ab-cdef-0123-456789abcdef",
                qr_url := "https://x/01234567-89ab-cdef-0123-456789abcdef",
                company_id := 1, scanned_by := 5, state := RecState.error,
                error_message := some "Erreur: invalid date for format %d/%m/%Y" }],
           nextId := 2 },
         ScanResult.dgiError (some "Erreur: invalid date for format %d/%m/%Y") 1) := rfl

/-- C10 (amended): whenever `_extract_dgi_data_from_text` returns, its
result carries `success = true` regardless of whether any field matched;
consequently, whenever the render path yields body text ON WHICH THE
EXTRACTOR RETURNS, `process_qr_scan` treats the fetch as successful even
with zero extracted fields: it creates a record whose `amount_ttc`
defaults to 0 and proceeds to attempt invoice creation, so the only
outcomes are success or INVOICE_ERROR — mere absence of extracted fields
is never a terminal outcome (body text on which the extractor raises is
instead reported as DGI_ERROR, as the counterexample shows). -/
theorem c10_success_marker_and_draft (txt raw : String) (d : DgiData)
    (fetchDgi : String → DgiData) (ci : InvoiceOracle)
    (st : Store) (company userId now : Nat) (url uuid : String)
    (hext : _extract_dgi_data_from_text txt raw = Except.ok d) :
    d.success = true ∧
    (extract_uuid_from_url url = some uuid →
     (∀ x ∈ st.records, ¬(x.qr_uuid = uuid ∧ x.company_id = company)) →
     fetchDgi url = d → d.amount_ttc = none →
     ∃ st2 res,
       process_qr_scan fetchDgi ci st company userId now url = Except.ok (st2, res) ∧
       (res.error_code = none ∨ res.error_code = some "INVOICE_ERROR") ∧
       ∃ rec, rec ∈ st2.records ∧ rec.id = st.nextId ∧ rec.amount_ttc = 0) := by
  have hsucc : d.success = true := by
    simp only [_extract_dgi_data_from_text] at hext
    cases h1 : extractDate txt.data with
    | error e => rw [h1] at hext; exact Except.noConfusion hext
    | ok dt =>
      rw [h1] at hext
      cases h2 : extractMontant txt.data with
      | error e => rw [h2] at hext; exact Except.noConfusion hext
      | ok amt =>
        rw [h2] at hext
        have hd := Except.ok.inj hext
        rw [← hd]
  refine ⟨hsucc, ?_⟩
  intro huu hfresh hfetch hamt
  have hdup := check_duplicate_eq_none st company uuid hfresh
  have hany := store_any_uuid_eq_false st company uuid hfresh
  have hfs : (fetchDgi url).success = true := by rw [hfetch]; exact hsucc
  simp only [process_qr_scan, huu, hdup, hfs, if_true, Store.create, hany,
    Bool.false_eq_true, if_false]
  split
  · refine ⟨_, _, rfl, Or.inl rfl, ?_⟩
    simp only [Store.writeRecord]
    refine ⟨_, List.mem_map_of_mem _ (List.mem_append_right _
      (List.mem_singleton_self _)), ?_, ?_⟩ <;> simp [hfetch, hamt]
  · refine ⟨_, _, rfl, Or.inr rfl, ?_⟩
    simp only [Store.writeRecord]
    refine ⟨_, List.mem_map_of_mem _ (List.mem_append_right _
      (List.mem_singleton_self _)), ?_, ?_⟩ <;> simp [hfetch, hamt]

/-- C10 witness: body text "X" extracts zero fields with a true success
marker, and a fresh scan proceeds to the invoice-creation attempt with
`amount_ttc = 0`. -/
theorem c10_success_marker_and_draft_witness :
    ({ text_content := "X" } : DgiData).success = true ∧
    ∃ st2 res,
      process_qr_scan (fun _ => { text_content := "X" })
        (fun _ => Except.error "no account")
        { records := [], nextId := 1 } 1 5 100
        "https://x/01234567-89ab-cdef-0123-456789abcdef" = Except.ok (st2, res) ∧
      (res.error_code = none ∨ res.error_code = some "INVOICE_ERROR") ∧
      ∃ rec, rec ∈ st2.records ∧ rec.id = 1 ∧ rec.amount_ttc = 0 :=
  ⟨(c10_success_marker_and_draft "X" "" { text_content := "X" }
      (fun _ => { text_content := "X" }) (fun _ => Except.error "no account")
      { records := [], nextId := 1 } 1 5 100
      "https://x/01234567-89ab-cdef-0123-456789abcdef"
      "01234567-89ab-cdef-0123-456789abcdef" rfl).1,
   (c10_success_marker_and_draft "X" "" { text_content := "X" }
      (fun _ => { text_content := "X" }) (fun _ => Except.error "no account")
      { records := [], nextId := 1 } 1 5 100
      "https://x/01234567-89ab-cdef-0123-456789abcdef"
      "01234567-89ab-cdef-0123-456789abcdef" rfl).2
     rfl (by intro x hx; simp at hx) rfl rfl⟩
